import Mathlib

/-!
# Verification of the sessioninit authentication cache

A shallow embedding of `pkg/sql/sessioninit/cache.go`: the versioned,
memory-bounded cache for per-user authentication info and default session
settings, together with proofs about its staleness protocol, write-back
rechecks, memory accounting and precedence-key generation.

Modelling conventions:
* Go machine integers (`descpb.DescriptorVersion`, `descpb.ID`, byte counts)
  are modelled as `Nat`; none of the verified code paths can overflow them.
* Go maps are association lists; a *nil* Go map is `none`, an allocated map
  is `some list`.  Reading a nil map yields the zero value (as in Go);
  assigning into a nil map is a Go runtime panic, modelled by the affected
  operation returning `none`.
* The mutex, singleflight group and stopper have no sequential counterpart:
  each lock-guarded critical section of the Go code becomes one atomic state
  transformer on the `Cache` structure.
* The external fetch callback (`readFromSystemTables`) is modelled by its
  outcome, an `Except` value supplied as an argument.
-/

namespace Sessioninit

/-- Modelled from the spec: `security.SQLUsername` (pkg/security is not in
src).  Per the spec a username is a normalized identifier; the cache only
ever stores pre-normalized names and reads them back via `Normalized()`. -/
structure SQLUsername where
  normalized : String
deriving DecidableEq, Repr

/-- `username.Normalized()` returns the normalized string form. -/
def SQLUsername.Normalized (u : SQLUsername) : String :=
  u.normalized

/-- Modelled from the spec: `security.PasswordHash` (pkg/security is not in
src) is an "optional opaque hash"; the cache only calls its `Size()` method,
so it is abstracted to its byte material. -/
structure PasswordHash where
  material : List Nat
deriving DecidableEq, Repr

/-- `hash.Size()`: the size in bytes of the hash material. -/
def PasswordHash.Size (h : PasswordHash) : Nat :=
  h.material.length

/-- AuthInfo contains data that is used to perform an authentication attempt
(cache.go lines 65-77).  `ValidUntil` is a `*tree.DTimestamp` in Go; only
its presence matters to the cache, so it is modelled as an optional value. -/
structure AuthInfo where
  UserExists : Bool
  CanLoginSQL : Bool
  CanLoginDBConsole : Bool
  HashedPassword : Option PasswordHash
  ValidUntil : Option Int
deriving DecidableEq, Repr

/-- The Go zero value `AuthInfo{}`. -/
def AuthInfo.zero : AuthInfo :=
  { UserExists := false, CanLoginSQL := false, CanLoginDBConsole := false,
    HashedPassword := none, ValidUntil := none }

/-- SettingsCacheKey is the key used for the settingsCache
(cache.go lines 79-83). -/
structure SettingsCacheKey where
  DatabaseID : Nat
  Username : SQLUsername
deriving DecidableEq, Repr

/-- SettingsCacheEntry represents an entry in the settingsCache
(cache.go lines 85-90); the key field is embedded in Go. -/
structure SettingsCacheEntry where
  key : SettingsCacheKey
  Settings : List String
deriving DecidableEq, Repr

/-- Modelled from the spec: `mon.BoundAccount` (pkg/util/mon is not in src)
is "a bounded allocation ledger; callers request growth by a byte count and
either succeed (budget reserved) or fail (budget exhausted)". -/
structure BoundAccount where
  used : Nat
  limit : Nat
deriving DecidableEq, Repr

/-- `grow(byteCount) -> success/failure` (spec section 4.3): reserve `n`
bytes, failing when the budget would be exhausted. -/
def BoundAccount.Grow (acc : BoundAccount) (n : Nat) : Option BoundAccount :=
  if acc.used + n ≤ acc.limit then some { acc with used := acc.used + n } else none

/-- `empty()` resets usage to zero (spec section 4.3). -/
def BoundAccount.Empty (acc : BoundAccount) : BoundAccount :=
  { acc with used := 0 }

/-- Lookup in an allocated Go map (association list). -/
def mapFind? {κ ν : Type} [DecidableEq κ] : List (κ × ν) → κ → Option ν
  | [], _ => none
  | (k', v) :: rest, k => if k' = k then some v else mapFind? rest k

/-- Reading `m[k]` from a possibly-nil Go map: a nil map reads as empty. -/
def goMapLookup {κ ν : Type} [DecidableEq κ] (m : Option (List (κ × ν))) (k : κ) : Option ν :=
  match m with
  | none => none
  | some l => mapFind? l k

/-- Assignment `m[k] = v` into an allocated Go map. -/
def mapInsert {κ ν : Type} [DecidableEq κ] : List (κ × ν) → κ → ν → List (κ × ν)
  | [], k, v => [(k, v)]
  | (k', v') :: rest, k, v =>
      if k' = k then (k, v) :: rest else (k', v') :: mapInsert rest k v

/-- Cache is a shared cache for hashed passwords and other information used
during user authentication and session initialization (cache.go lines
47-63).  The mutex, singleflight group and stopper are concurrency
machinery with no sequential counterpart; the two maps are `none` while
still the nil maps left by `NewCache`. -/
structure Cache where
  usersTableVersion : Nat
  roleOptionsTableVersion : Nat
  dbRoleSettingsTableVersion : Nat
  boundAccount : BoundAccount
  authInfoCache : Option (List (SQLUsername × AuthInfo))
  settingsCache : Option (List (SettingsCacheKey × List String))
deriving DecidableEq, Repr

/-- NewCache initializes a new sessioninit.Cache (cache.go lines 92-98):
versions are the Go zero value 0 and both maps are nil. -/
def NewCache (account : BoundAccount) : Cache :=
  { usersTableVersion := 0, roleOptionsTableVersion := 0,
    dbRoleSettingsTableVersion := 0, boundAccount := account,
    authInfoCache := none, settingsCache := none }

/-- clearCacheIfStale compares the cached table versions to the current
table versions (cache.go lines 453-482).  Returns the updated cache and the
`isEligibleForCache` flag.  Note: the clearing branch assigns the
caller-supplied versions directly (lines 468-470), it does not take a
maximum with the stored watermarks. -/
def clearCacheIfStale (a : Cache)
    (usersTableVersion roleOptionsTableVersion dbRoleSettingsTableVersion : Nat) :
    Cache × Bool :=
  if a.usersTableVersion < usersTableVersion ∨
      a.roleOptionsTableVersion < roleOptionsTableVersion ∨
      a.dbRoleSettingsTableVersion < dbRoleSettingsTableVersion then
    ({ a with
        usersTableVersion := usersTableVersion,
        roleOptionsTableVersion := roleOptionsTableVersion,
        dbRoleSettingsTableVersion := dbRoleSettingsTableVersion,
        authInfoCache := some [],
        settingsCache := some [],
        boundAccount := a.boundAccount.Empty }, true)
  else if usersTableVersion < a.usersTableVersion ∨
      roleOptionsTableVersion < a.roleOptionsTableVersion ∨
      dbRoleSettingsTableVersion < a.dbRoleSettingsTableVersion then
    (a, false)
  else
    (a, true)

/-- readAuthInfoFromCache (cache.go lines 188-204): under the lock, run the
staleness check (passing the stored db-role-settings watermark through) and
look the username up in the auth-info map. -/
def readAuthInfoFromCache (a : Cache)
    (usersTableVersion roleOptionsTableVersion : Nat) (username : SQLUsername) :
    Cache × AuthInfo × Bool :=
  let p := clearCacheIfStale a usersTableVersion roleOptionsTableVersion
    a.dbRoleSettingsTableVersion
  if p.2 then
    match goMapLookup p.1.authInfoCache username with
    | some ai => (p.1, ai, true)
    | none => (p.1, AuthInfo.zero, false)
  else
    (p.1, AuthInfo.zero, false)

/-- Modelled from the spec: the `unsafe.Sizeof` platform constants of
cache.go lines 251-253 and 424; per spec section 9 they are replaced by an
explicit portable static size model (fixed base cost per entity type).  No
theorem depends on their particular values. -/
def sizeOfUsername : Nat := 16

/-- Modelled from the spec: fixed base cost of an `AuthInfo` struct. -/
def sizeOfAuthInfo : Nat := 48

/-- Modelled from the spec: fixed base cost of a `tree.DTimestamp`. -/
def sizeOfTimestamp : Nat := 24

/-- Modelled from the spec: fixed base cost of a `SettingsCacheEntry`. -/
def sizeOfSettingsCacheEntry : Nat := 40

/-- The static size estimate for one auth-info cache entry
(cache.go lines 255-262). -/
def authInfoEntrySize (username : SQLUsername) (aInfo : AuthInfo) : Nat :=
  sizeOfUsername + username.Normalized.length +
    sizeOfAuthInfo +
    (match aInfo.HashedPassword with
     | none => 0
     | some h => h.Size) +
    sizeOfTimestamp

/-- maybeWriteAuthInfoBackToCache (cache.go lines 237-272): recheck the two
relevant watermarks, request a memory grant, and install the entry.  A
failed grant is only a warning: the entry is skipped and `true` is still
returned.  Result `none` models the Go runtime panic of assigning into a
nil map. -/
def maybeWriteAuthInfoBackToCache (a : Cache)
    (usersTableVersion roleOptionsTableVersion : Nat)
    (aInfo : AuthInfo) (username : SQLUsername) : Option (Cache × Bool) :=
  if a.usersTableVersion ≠ usersTableVersion ∨
      a.roleOptionsTableVersion ≠ roleOptionsTableVersion then
    some (a, false)
  else
    match a.boundAccount.Grow (authInfoEntrySize username aInfo) with
    | none => some (a, true)
    | some acct =>
      match a.authInfoCache with
      | none => none
      | some m =>
        some ({ a with
            boundAccount := acct,
            authInfoCache := some (mapInsert m username aInfo) }, true)

/-- Modelled from the spec: `defaultDatabaseID` lives in constants.go (not
in src); spec section 3 fixes the sentinel `0 = "no specific database"`. -/
def defaultDatabaseID : Nat := 0

/-- Modelled from the spec: `defaultUsername` lives in constants.go (not in
src); spec section 3 fixes the sentinel `empty = "default role"`. -/
def defaultUsername : SQLUsername := ⟨""⟩

/-- GenerateSettingsCacheKeys (cache.go lines 484-508): the four
precedence keys in descending order of precedence. -/
def GenerateSettingsCacheKeys (databaseID : Nat) (username : SQLUsername) :
    List SettingsCacheKey :=
  [ { DatabaseID := databaseID, Username := username },
    { DatabaseID := defaultDatabaseID, Username := username },
    { DatabaseID := databaseID, Username := defaultUsername },
    { DatabaseID := defaultDatabaseID, Username := defaultUsername } ]

/-- The lookup loop of readDefaultSettingsFromCache (cache.go lines
388-403): walk the precedence keys in order, accumulating entries, and stop
at the first key missing from the settings map. -/
def collectSettings (m : Option (List (SettingsCacheKey × List String))) :
    List SettingsCacheKey → List SettingsCacheEntry × Bool
  | [] => ([], true)
  | k :: ks =>
    match goMapLookup m k with
    | none => ([], false)
    | some s =>
      let rest := collectSettings m ks
      (⟨k, s⟩ :: rest.1, rest.2)

/-- readDefaultSettingsFromCache (cache.go lines 372-405): under the lock,
run the staleness check (passing the stored users and role-options
watermarks through) and gather all four precedence entries, reporting a hit
only if every one is present. -/
def readDefaultSettingsFromCache (a : Cache)
    (dbRoleSettingsTableVersion : Nat) (username : SQLUsername) (databaseID : Nat) :
    Cache × List SettingsCacheEntry × Bool :=
  let p := clearCacheIfStale a a.usersTableVersion a.roleOptionsTableVersion
    dbRoleSettingsTableVersion
  if p.2 then
    let r := collectSettings p.1.settingsCache
      (GenerateSettingsCacheKeys databaseID username)
    (p.1, r.1, r.2)
  else
    (p.1, [], false)

/-- The static size estimate for one settings cache entry
(cache.go lines 431-435). -/
def settingsEntrySize (sEntry : SettingsCacheEntry) : Nat :=
  sizeOfSettingsCacheEntry + sEntry.key.Username.Normalized.length +
    (sEntry.Settings.map String.length).sum

/-- The size-accumulation loop of maybeWriteDefaultSettingsBackToCache
(cache.go lines 425-436): keys already present in the settings map are
skipped to avoid double-counting memory. -/
def computeSettingsSize (m : Option (List (SettingsCacheKey × List String))) :
    List SettingsCacheEntry → Nat
  | [] => 0
  | e :: rest =>
    if (goMapLookup m e.key).isSome then computeSettingsSize m rest
    else settingsEntrySize e + computeSettingsSize m rest

/-- The insertion loop of maybeWriteDefaultSettingsBackToCache (cache.go
lines 443-448): re-storing an existing key is skipped.  Outer `none` models
the Go runtime panic of assigning into a nil map. -/
def insertSettingsEntries (m : Option (List (SettingsCacheKey × List String))) :
    List SettingsCacheEntry → Option (Option (List (SettingsCacheKey × List String)))
  | [] => some m
  | e :: rest =>
    if (goMapLookup m e.key).isSome then insertSettingsEntries m rest
    else
      match m with
      | none => none
      | some mm => insertSettingsEntries (some (mapInsert mm e.key e.Settings)) rest

/-- maybeWriteDefaultSettingsBackToCache (cache.go lines 411-451): recheck
the db-role-settings watermark, request a grant only for the keys not
already present, and install the absent entries.  A failed grant is only a
warning: nothing is installed and `true` is still returned. -/
def maybeWriteDefaultSettingsBackToCache (a : Cache)
    (dbRoleSettingsTableVersion : Nat) (settingsEntries : List SettingsCacheEntry) :
    Option (Cache × Bool) :=
  if a.dbRoleSettingsTableVersion ≠ dbRoleSettingsTableVersion then
    some (a, false)
  else
    match a.boundAccount.Grow (computeSettingsSize a.settingsCache settingsEntries) with
    | none => some (a, true)
    | some acct =>
      match insertSettingsEntries a.settingsCache settingsEntries with
      | none => none
      | some m =>
        some ({ a with
            boundAccount := acct,
            settingsCache := m }, true)

/-- Modelled from the spec: the slice of a catalog table descriptor the
facade consults (descs/descpb are not in src): "the current version number
and commit-status of each of the three relevant catalog tables". -/
structure DescriptorInfo where
  version : Nat
  isUncommittedVersion : Bool
deriving DecidableEq, Repr

/-- GetAuthInfo (cache.go lines 100-186), sequentialized: the coalesced
fetch is represented by its outcome `readFromSystemTables`.  Returns the
final cache state and the returned `(AuthInfo, error)` pair; outer `none`
models a panic inside the write-back. -/
def GetAuthInfo {ε : Type} (cacheEnabled : Bool) (a : Cache)
    (usersTableDesc roleOptionsTableDesc : DescriptorInfo)
    (username : SQLUsername) (readFromSystemTables : Except ε AuthInfo) :
    Option (Cache × Except ε AuthInfo) :=
  if !cacheEnabled then
    some (a, readFromSystemTables)
  else if usersTableDesc.isUncommittedVersion || roleOptionsTableDesc.isUncommittedVersion then
    some (a, readFromSystemTables)
  else
    let uv := usersTableDesc.version
    let rv := roleOptionsTableDesc.version
    let r := readAuthInfoFromCache a uv rv username
    if r.2.2 then
      some (r.1, Except.ok r.2.1)
    else
      match readFromSystemTables with
      | Except.error e => some (r.1, Except.error e)
      | Except.ok v =>
        match maybeWriteAuthInfoBackToCache r.1 uv rv v username with
        | none => none
        | some p => some (p.1, Except.ok v)

/-- GetDefaultSettings (cache.go lines 274-370), sequentialized the same
way; the database name has already been resolved to `databaseID` (an
unresolvable name degrades to the sentinel 0, cache.go lines 307-318). -/
def GetDefaultSettings {ε : Type} (cacheEnabled : Bool) (a : Cache)
    (dbRoleSettingsTableDesc : DescriptorInfo)
    (username : SQLUsername) (databaseID : Nat)
    (readFromSystemTables : Except ε (List SettingsCacheEntry)) :
    Option (Cache × Except ε (List SettingsCacheEntry)) :=
  if dbRoleSettingsTableDesc.isUncommittedVersion || !cacheEnabled then
    some (a, readFromSystemTables)
  else
    let dv := dbRoleSettingsTableDesc.version
    let r := readDefaultSettingsFromCache a dv username databaseID
    if r.2.2 then
      some (r.1, Except.ok r.2.1)
    else
      match readFromSystemTables with
      | Except.error e => some (r.1, Except.error e)
      | Except.ok es =>
        match maybeWriteDefaultSettingsBackToCache r.1 dv es with
        | none => none
        | some p => some (p.1, Except.ok es)

/-- One critical-section operation on the embedded cache state: each
constructor is one of the five lock-guarded state transformers, with
arbitrary caller-supplied arguments.  Write-backs step only when they do
not panic. -/
inductive Step (c : Cache) : Cache → Prop where
  | clearIfStale (u r d : Nat) : Step c (clearCacheIfStale c u r d).1
  | readAuth (u r : Nat) (user : SQLUsername) :
      Step c (readAuthInfoFromCache c u r user).1
  | readSettings (d : Nat) (user : SQLUsername) (db : Nat) :
      Step c (readDefaultSettingsFromCache c d user db).1
  | writeAuth (u r : Nat) (info : AuthInfo) (user : SQLUsername) (p : Cache × Bool)
      (h : maybeWriteAuthInfoBackToCache c u r info user = some p) : Step c p.1
  | writeSettings (d : Nat) (es : List SettingsCacheEntry) (p : Cache × Bool)
      (h : maybeWriteDefaultSettingsBackToCache c d es = some p) : Step c p.1

/-- Cache states reachable from a freshly constructed cache by any sequence
of operations. -/
inductive Reachable (acct : BoundAccount) : Cache → Prop where
  | init : Reachable acct (NewCache acct)
  | step {c c' : Cache} : Reachable acct c → Step c c' → Reachable acct c'

end Sessioninit

namespace Sessioninit

/-- The staleness check is a no-op reporting not-eligible when no caller
version exceeds its watermark and some caller version is below it. -/
theorem clearCacheIfStale_not_eligible (a : Cache) (u r d : Nat)
    (h1 : ¬ (a.usersTableVersion < u ∨ a.roleOptionsTableVersion < r ∨
      a.dbRoleSettingsTableVersion < d))
    (h2 : u < a.usersTableVersion ∨ r < a.roleOptionsTableVersion ∨
      d < a.dbRoleSettingsTableVersion) :
    clearCacheIfStale a u r d = (a, false) := by
  unfold clearCacheIfStale
  rw [if_neg h1, if_pos h2]

/-- The staleness check is a no-op reporting eligible when all caller
versions equal their watermarks. -/
theorem clearCacheIfStale_all_equal (a : Cache) :
    clearCacheIfStale a a.usersTableVersion a.roleOptionsTableVersion
      a.dbRoleSettingsTableVersion = (a, true) := by
  unfold clearCacheIfStale
  rw [if_neg, if_neg]
  · push_neg
    exact ⟨Nat.le_refl _, Nat.le_refl _, Nat.le_refl _⟩
  · push_neg
    exact ⟨Nat.le_refl _, Nat.le_refl _, Nat.le_refl _⟩

/-- An auth-info read whose caller versions are behind the watermarks
reports a miss and leaves the state unchanged. -/
theorem readAuthInfoFromCache_not_eligible (a : Cache) (u r : Nat)
    (user : SQLUsername) (hu : u ≤ a.usersTableVersion)
    (hr : r ≤ a.roleOptionsTableVersion)
    (hlt : u < a.usersTableVersion ∨ r < a.roleOptionsTableVersion) :
    readAuthInfoFromCache a u r user = (a, AuthInfo.zero, false) := by
  have hc : clearCacheIfStale a u r a.dbRoleSettingsTableVersion = (a, false) := by
    refine clearCacheIfStale_not_eligible a u r _ ?_ ?_
    · push_neg
      exact ⟨hu, hr, Nat.le_refl _⟩
    · exact Or.elim hlt (fun h => Or.inl h) fun h => Or.inr (Or.inl h)
  simp [readAuthInfoFromCache, hc]

/-- A settings read whose caller version is behind the watermark reports a
miss and leaves the state unchanged. -/
theorem readDefaultSettingsFromCache_not_eligible (a : Cache) (d : Nat)
    (user : SQLUsername) (db : Nat) (hd : d < a.dbRoleSettingsTableVersion) :
    readDefaultSettingsFromCache a d user db = (a, [], false) := by
  have hc : clearCacheIfStale a a.usersTableVersion a.roleOptionsTableVersion d =
      (a, false) := by
    refine clearCacheIfStale_not_eligible a _ _ d ?_ ?_
    · push_neg
      exact ⟨Nat.le_refl _, Nat.le_refl _, Nat.le_of_lt hd⟩
    · exact Or.inr (Or.inr hd)
  simp [readDefaultSettingsFromCache, hc]

/-- An auth-info write-back whose version recheck fails is a complete
no-op returning false. -/
theorem maybeWriteAuthInfoBackToCache_version_mismatch (a : Cache) (u r : Nat)
    (info : AuthInfo) (user : SQLUsername)
    (h : a.usersTableVersion ≠ u ∨ a.roleOptionsTableVersion ≠ r) :
    maybeWriteAuthInfoBackToCache a u r info user = some (a, false) := by
  unfold maybeWriteAuthInfoBackToCache
  rw [if_pos h]

/-- A settings write-back whose version recheck fails is a complete no-op
returning false. -/
theorem maybeWriteDefaultSettingsBackToCache_version_mismatch (a : Cache)
    (d : Nat) (es : List SettingsCacheEntry)
    (h : a.dbRoleSettingsTableVersion ≠ d) :
    maybeWriteDefaultSettingsBackToCache a d es = some (a, false) := by
  unfold maybeWriteDefaultSettingsBackToCache
  rw [if_pos h]

/-- C1 as stated is false: the clearing branch of clearCacheIfStale
(cache.go lines 468-470) assigns the caller-supplied versions directly.
Starting from a fresh cache, a first call with versions (0, 5, 0) stores the
role-options watermark 5; a second call with versions (1, 3, 0) has a
caller users version (1) strictly greater than its watermark (0), yet the
resulting role-options watermark is 3, not max 5 3 = 5: the stored
watermark 5 is lowered to the caller value 3. -/
theorem C1_counterexample :
    (clearCacheIfStale (NewCache ⟨0, 10⟩) 0 5 0).1.usersTableVersion <
      1 ∧
    (clearCacheIfStale (NewCache ⟨0, 10⟩) 0 5 0).1.roleOptionsTableVersion = 5 ∧
    (clearCacheIfStale
        (clearCacheIfStale (NewCache ⟨0, 10⟩) 0 5 0).1 1 3 0).1.roleOptionsTableVersion = 3 ∧
    ¬ (clearCacheIfStale
        (clearCacheIfStale (NewCache ⟨0, 10⟩) 0 5 0).1 1 3 0).1.roleOptionsTableVersion =
      max 5 3 := by
  decide

/-- C1 (amended): when at least one caller-supplied version is strictly
greater than its stored watermark, clearCacheIfStale sets all three
watermarks to the caller-supplied values (possibly lowering a watermark
whose stored value exceeds the caller's), replaces both mappings by fresh
empty ones, resets the memory account to zero, and reports the cache
eligible. -/
theorem C1_clear_branch_sets_caller_versions (a : Cache) (u r d : Nat)
    (h : a.usersTableVersion < u ∨ a.roleOptionsTableVersion < r ∨
      a.dbRoleSettingsTableVersion < d) :
    clearCacheIfStale a u r d =
      ({ a with
          usersTableVersion := u,
          roleOptionsTableVersion := r,
          dbRoleSettingsTableVersion := d,
          authInfoCache := some [],
          settingsCache := some [],
          boundAccount := a.boundAccount.Empty }, true) := by
  unfold clearCacheIfStale
  rw [if_pos h]

/-- Witness for C1 (amended) at a fresh cache and caller versions (1, 0, 0). -/
theorem C1_clear_branch_witness :
    clearCacheIfStale (NewCache ⟨0, 10⟩) 1 0 0 =
      ({ usersTableVersion := 1, roleOptionsTableVersion := 0,
         dbRoleSettingsTableVersion := 0, boundAccount := ⟨0, 10⟩,
         authInfoCache := some [], settingsCache := some [] }, true) :=
  C1_clear_branch_sets_caller_versions (NewCache ⟨0, 10⟩) 1 0 0 (Or.inl (by decide))

/-- C3: when no caller-supplied version is strictly greater than its stored
watermark and at least one is strictly less, the staleness check reports
not-eligible and leaves the whole cache state (watermarks, both mappings,
memory account) unchanged, and both read operations report a miss, so the
caller bypasses the cache. -/
theorem C3_not_eligible_state_unchanged (a : Cache) (u r d : Nat)
    (user : SQLUsername) (db : Nat) :
    (¬ (a.usersTableVersion < u ∨ a.roleOptionsTableVersion < r ∨
        a.dbRoleSettingsTableVersion < d) →
      (u < a.usersTableVersion ∨ r < a.roleOptionsTableVersion ∨
        d < a.dbRoleSettingsTableVersion) →
      clearCacheIfStale a u r d = (a, false)) ∧
    (u ≤ a.usersTableVersion → r ≤ a.roleOptionsTableVersion →
      (u < a.usersTableVersion ∨ r < a.roleOptionsTableVersion) →
      readAuthInfoFromCache a u r user = (a, AuthInfo.zero, false)) ∧
    (d < a.dbRoleSettingsTableVersion →
      readDefaultSettingsFromCache a d user db = (a, [], false)) := by
  exact ⟨clearCacheIfStale_not_eligible a u r d,
    readAuthInfoFromCache_not_eligible a u r user,
    readDefaultSettingsFromCache_not_eligible a d user db⟩

/-- Witness for C3 at stored watermarks (2, 2, 2) and caller versions
(1, 2, 1). -/
theorem C3_not_eligible_witness :
    clearCacheIfStale
        { usersTableVersion := 2, roleOptionsTableVersion := 2,
          dbRoleSettingsTableVersion := 2, boundAccount := ⟨3, 10⟩,
          authInfoCache := some [], settingsCache := some [] } 1 2 1 =
      ({ usersTableVersion := 2, roleOptionsTableVersion := 2,
         dbRoleSettingsTableVersion := 2, boundAccount := ⟨3, 10⟩,
         authInfoCache := some [], settingsCache := some [] }, false) ∧
    readAuthInfoFromCache
        { usersTableVersion := 2, roleOptionsTableVersion := 2,
          dbRoleSettingsTableVersion := 2, boundAccount := ⟨3, 10⟩,
          authInfoCache := some [], settingsCache := some [] } 1 2 ⟨"alice"⟩ =
      ({ usersTableVersion := 2, roleOptionsTableVersion := 2,
         dbRoleSettingsTableVersion := 2, boundAccount := ⟨3, 10⟩,
         authInfoCache := some [], settingsCache := some [] }, AuthInfo.zero, false) ∧
    readDefaultSettingsFromCache
        { usersTableVersion := 2, roleOptionsTableVersion := 2,
          dbRoleSettingsTableVersion := 2, boundAccount := ⟨3, 10⟩,
          authInfoCache := some [], settingsCache := some [] } 1 ⟨"alice"⟩ 7 =
      ({ usersTableVersion := 2, roleOptionsTableVersion := 2,
         dbRoleSettingsTableVersion := 2, boundAccount := ⟨3, 10⟩,
         authInfoCache := some [], settingsCache := some [] }, [], false) := by
  have h := C3_not_eligible_state_unchanged
    { usersTableVersion := 2, roleOptionsTableVersion := 2,
      dbRoleSettingsTableVersion := 2, boundAccount := ⟨3, 10⟩,
      authInfoCache := some [], settingsCache := some [] } 1 2 1 ⟨"alice"⟩ 7
  exact ⟨h.1 (by decide) (by decide),
    h.2.1 (by decide) (by decide) (by decide),
    h.2.2 (by decide)⟩

/-- Componentwise order on the three stored version watermarks. -/
def versionsLE (a b : Cache) : Prop :=
  a.usersTableVersion ≤ b.usersTableVersion ∧
    a.roleOptionsTableVersion ≤ b.roleOptionsTableVersion ∧
    a.dbRoleSettingsTableVersion ≤ b.dbRoleSettingsTableVersion

/-- The cache state returned by readAuthInfoFromCache is exactly the state
left by its staleness check; the map lookup mutates nothing. -/
theorem readAuthInfoFromCache_fst (a : Cache) (u r : Nat) (user : SQLUsername) :
    (readAuthInfoFromCache a u r user).1 =
      (clearCacheIfStale a u r a.dbRoleSettingsTableVersion).1 := by
  unfold readAuthInfoFromCache
  dsimp only
  split
  · split <;> rfl
  · rfl

/-- The cache state returned by readDefaultSettingsFromCache is exactly the
state left by its staleness check. -/
theorem readDefaultSettingsFromCache_fst (a : Cache) (d : Nat)
    (user : SQLUsername) (db : Nat) :
    (readDefaultSettingsFromCache a d user db).1 =
      (clearCacheIfStale a a.usersTableVersion a.roleOptionsTableVersion d).1 := by
  unfold readDefaultSettingsFromCache
  dsimp only
  split <;> rfl

/-- A successful auth-info write-back never changes the watermarks. -/
theorem maybeWriteAuthInfoBackToCache_versions (a : Cache) (u r : Nat)
    (info : AuthInfo) (user : SQLUsername) (p : Cache × Bool)
    (h : maybeWriteAuthInfoBackToCache a u r info user = some p) :
    p.1.usersTableVersion = a.usersTableVersion ∧
      p.1.roleOptionsTableVersion = a.roleOptionsTableVersion ∧
      p.1.dbRoleSettingsTableVersion = a.dbRoleSettingsTableVersion := by
  unfold maybeWriteAuthInfoBackToCache at h
  split at h
  · cases h
    exact ⟨rfl, rfl, rfl⟩
  · split at h
    · cases h
      exact ⟨rfl, rfl, rfl⟩
    · split at h
      · cases h
      · cases h
        exact ⟨rfl, rfl, rfl⟩

/-- A successful settings write-back never changes the watermarks. -/
theorem maybeWriteDefaultSettingsBackToCache_versions (a : Cache) (d : Nat)
    (es : List SettingsCacheEntry) (p : Cache × Bool)
    (h : maybeWriteDefaultSettingsBackToCache a d es = some p) :
    p.1.usersTableVersion = a.usersTableVersion ∧
      p.1.roleOptionsTableVersion = a.roleOptionsTableVersion ∧
      p.1.dbRoleSettingsTableVersion = a.dbRoleSettingsTableVersion := by
  unfold maybeWriteDefaultSettingsBackToCache at h
  split at h
  · cases h
    exact ⟨rfl, rfl, rfl⟩
  · split at h
    · cases h
      exact ⟨rfl, rfl, rfl⟩
    · split at h
      · cases h
      · cases h
        exact ⟨rfl, rfl, rfl⟩

/-- C2 as stated is false: watermarks are not monotone under arbitrary
caller-supplied versions.  From the fresh cache, the operation
clearCacheIfStale with versions (0, 5, 0) reaches a state whose
role-options watermark is 5; the further operation clearCacheIfStale with
versions (1, 3, 0) is a legal step (users version 1 exceeds watermark 0)
and changes the stored role-options watermark to the strictly smaller
value 3. -/
theorem C2_counterexample :
    Reachable ⟨0, 10⟩ (clearCacheIfStale (NewCache ⟨0, 10⟩) 0 5 0).1 ∧
    Step (clearCacheIfStale (NewCache ⟨0, 10⟩) 0 5 0).1
      (clearCacheIfStale (clearCacheIfStale (NewCache ⟨0, 10⟩) 0 5 0).1 1 3 0).1 ∧
    (clearCacheIfStale
        (clearCacheIfStale (NewCache ⟨0, 10⟩) 0 5 0).1 1 3 0).1.roleOptionsTableVersion <
      (clearCacheIfStale (NewCache ⟨0, 10⟩) 0 5 0).1.roleOptionsTableVersion :=
  ⟨Reachable.step Reachable.init (Step.clearIfStale 0 5 0),
    Step.clearIfStale 1 3 0, by decide⟩

/-- C2 (amended): a stored watermark never decreases in an operation whose
caller-supplied version for each table is at least the corresponding stored
watermark, and the two write-back operations never change the watermarks at
all.  (Arbitrary versions can regress a watermark, as the clearing branch
overwrites all three with the caller values.) -/
theorem C2_watermarks_monotone_for_fresh_callers (a : Cache) (u r d : Nat)
    (user : SQLUsername) (db : Nat) (info : AuthInfo)
    (es : List SettingsCacheEntry) :
    (a.usersTableVersion ≤ u → a.roleOptionsTableVersion ≤ r →
      a.dbRoleSettingsTableVersion ≤ d →
      versionsLE a (clearCacheIfStale a u r d).1) ∧
    (a.usersTableVersion ≤ u → a.roleOptionsTableVersion ≤ r →
      versionsLE a (readAuthInfoFromCache a u r user).1) ∧
    (a.dbRoleSettingsTableVersion ≤ d →
      versionsLE a (readDefaultSettingsFromCache a d user db).1) ∧
    (∀ p, maybeWriteAuthInfoBackToCache a u r info user = some p →
      versionsLE a p.1) ∧
    (∀ p, maybeWriteDefaultSettingsBackToCache a d es = some p →
      versionsLE a p.1) := by
  have hclear : ∀ u' r' d', a.usersTableVersion ≤ u' →
      a.roleOptionsTableVersion ≤ r' → a.dbRoleSettingsTableVersion ≤ d' →
      versionsLE a (clearCacheIfStale a u' r' d').1 := by
    intro u' r' d' hu hr hd
    unfold clearCacheIfStale versionsLE
    split
    · exact ⟨hu, hr, hd⟩
    · split <;> exact ⟨Nat.le_refl _, Nat.le_refl _, Nat.le_refl _⟩
  refine ⟨fun hu hr hd => hclear u r d hu hr hd,
    fun hu hr => ?_, fun hd => ?_, fun p hp => ?_, fun p hp => ?_⟩
  · rw [readAuthInfoFromCache_fst]
    exact hclear u r a.dbRoleSettingsTableVersion hu hr (Nat.le_refl _)
  · rw [readDefaultSettingsFromCache_fst]
    exact hclear a.usersTableVersion a.roleOptionsTableVersion d
      (Nat.le_refl _) (Nat.le_refl _) hd
  · obtain ⟨h1, h2, h3⟩ := maybeWriteAuthInfoBackToCache_versions a u r info user p hp
    exact ⟨Nat.le_of_eq h1.symm, Nat.le_of_eq h2.symm, Nat.le_of_eq h3.symm⟩
  · obtain ⟨h1, h2, h3⟩ := maybeWriteDefaultSettingsBackToCache_versions a d es p hp
    exact ⟨Nat.le_of_eq h1.symm, Nat.le_of_eq h2.symm, Nat.le_of_eq h3.symm⟩

/-- Witness for C2 (amended) at stored watermarks (1, 1, 1) and caller
versions (2, 1, 1). -/
theorem C2_watermarks_monotone_witness :
    versionsLE
      { usersTableVersion := 1, roleOptionsTableVersion := 1,
        dbRoleSettingsTableVersion := 1, boundAccount := ⟨0, 10⟩,
        authInfoCache := some [], settingsCache := some [] }
      (clearCacheIfStale
        { usersTableVersion := 1, roleOptionsTableVersion := 1,
          dbRoleSettingsTableVersion := 1, boundAccount := ⟨0, 10⟩,
          authInfoCache := some [], settingsCache := some [] } 2 1 1).1 ∧
    versionsLE
      { usersTableVersion := 1, roleOptionsTableVersion := 1,
        dbRoleSettingsTableVersion := 1, boundAccount := ⟨0, 10⟩,
        authInfoCache := some [], settingsCache := some [] }
      (readAuthInfoFromCache
        { usersTableVersion := 1, roleOptionsTableVersion := 1,
          dbRoleSettingsTableVersion := 1, boundAccount := ⟨0, 10⟩,
          authInfoCache := some [], settingsCache := some [] } 2 1 ⟨"alice"⟩).1 := by
  have h := C2_watermarks_monotone_for_fresh_callers
    { usersTableVersion := 1, roleOptionsTableVersion := 1,
      dbRoleSettingsTableVersion := 1, boundAccount := ⟨0, 10⟩,
      authInfoCache := some [], settingsCache := some [] } 2 1 1 ⟨"alice"⟩ 7
    AuthInfo.zero []
  exact ⟨h.1 (by decide) (by decide) (by decide), h.2.1 (by decide) (by decide)⟩

/-- C7: for every databaseID and username, GenerateSettingsCacheKeys
returns exactly four keys in fixed descending-precedence order
`(db, user), (0, user), (db, ""), (0, "")`; in particular for
`dbID = 7, user = "bob"` it returns
`[(7, "bob"), (0, "bob"), (7, ""), (0, "")]`. -/
theorem C7_generate_settings_cache_keys :
    (∀ (databaseID : Nat) (username : SQLUsername),
      GenerateSettingsCacheKeys databaseID username =
        [ ⟨databaseID, username⟩, ⟨0, username⟩,
          ⟨databaseID, ⟨""⟩⟩, ⟨0, ⟨""⟩⟩ ]) ∧
    GenerateSettingsCacheKeys 7 ⟨"bob"⟩ =
      [ ⟨7, ⟨"bob"⟩⟩, ⟨0, ⟨"bob"⟩⟩, ⟨7, ⟨""⟩⟩, ⟨0, ⟨""⟩⟩ ] :=
  ⟨fun _ _ => rfl, rfl⟩

/-- C4: if at write-back time the stored watermark for a table relevant to
the fetch differs from the version the value was fetched against, the
write-back leaves the store (watermarks, both mappings, memory account)
unchanged and installs nothing, while GetAuthInfo (respectively
GetDefaultSettings) still returns the fetched value without error. -/
theorem C4_writeback_race_discards {ε : Type} (a : Cache) (u r d : Nat)
    (v : AuthInfo) (es : List SettingsCacheEntry) (user : SQLUsername) (db : Nat) :
    ((a.usersTableVersion ≠ u ∨ a.roleOptionsTableVersion ≠ r) →
      maybeWriteAuthInfoBackToCache a u r v user = some (a, false)) ∧
    (a.dbRoleSettingsTableVersion ≠ d →
      maybeWriteDefaultSettingsBackToCache a d es = some (a, false)) ∧
    (u ≤ a.usersTableVersion → r ≤ a.roleOptionsTableVersion →
      (u < a.usersTableVersion ∨ r < a.roleOptionsTableVersion) →
      GetAuthInfo true a ⟨u, false⟩ ⟨r, false⟩ user
        (Except.ok v : Except ε AuthInfo) = some (a, Except.ok v)) ∧
    (d < a.dbRoleSettingsTableVersion →
      GetDefaultSettings true a ⟨d, false⟩ user db
        (Except.ok es : Except ε (List SettingsCacheEntry)) =
          some (a, Except.ok es)) := by
  refine ⟨maybeWriteAuthInfoBackToCache_version_mismatch a u r v user,
    maybeWriteDefaultSettingsBackToCache_version_mismatch a d es,
    fun hu hr hlt => ?_, fun hd => ?_⟩
  · have hread := readAuthInfoFromCache_not_eligible a u r user hu hr hlt
    have hw := maybeWriteAuthInfoBackToCache_version_mismatch a u r v user
      (Or.elim hlt (fun h => Or.inl (Nat.ne_of_gt h)) fun h => Or.inr (Nat.ne_of_gt h))
    simp [GetAuthInfo, hread, hw]
  · have hread := readDefaultSettingsFromCache_not_eligible a d user db hd
    have hw := maybeWriteDefaultSettingsBackToCache_version_mismatch a d es
      (Nat.ne_of_gt hd)
    simp [GetDefaultSettings, hread, hw]

/-- Witness for C4 at stored watermarks (2, 2, 2) and fetch versions
(1, 2) for auth info and 1 for settings. -/
theorem C4_writeback_race_witness :
    maybeWriteAuthInfoBackToCache
        { usersTableVersion := 2, roleOptionsTableVersion := 2,
          dbRoleSettingsTableVersion := 2, boundAccount := ⟨0, 100⟩,
          authInfoCache := some [], settingsCache := some [] }
        1 2 AuthInfo.zero ⟨"alice"⟩ =
      some ({ usersTableVersion := 2, roleOptionsTableVersion := 2,
              dbRoleSettingsTableVersion := 2, boundAccount := ⟨0, 100⟩,
              authInfoCache := some [], settingsCache := some [] }, false) ∧
    maybeWriteDefaultSettingsBackToCache
        { usersTableVersion := 2, roleOptionsTableVersion := 2,
          dbRoleSettingsTableVersion := 2, boundAccount := ⟨0, 100⟩,
          authInfoCache := some [], settingsCache := some [] } 1 [] =
      some ({ usersTableVersion := 2, roleOptionsTableVersion := 2,
              dbRoleSettingsTableVersion := 2, boundAccount := ⟨0, 100⟩,
              authInfoCache := some [], settingsCache := some [] }, false) ∧
    GetAuthInfo true
        { usersTableVersion := 2, roleOptionsTableVersion := 2,
          dbRoleSettingsTableVersion := 2, boundAccount := ⟨0, 100⟩,
          authInfoCache := some [], settingsCache := some [] }
        ⟨1, false⟩ ⟨2, false⟩ ⟨"alice"⟩ (Except.ok AuthInfo.zero : Except Unit AuthInfo) =
      some ({ usersTableVersion := 2, roleOptionsTableVersion := 2,
              dbRoleSettingsTableVersion := 2, boundAccount := ⟨0, 100⟩,
              authInfoCache := some [], settingsCache := some [] }, Except.ok AuthInfo.zero) ∧
    GetDefaultSettings true
        { usersTableVersion := 2, roleOptionsTableVersion := 2,
          dbRoleSettingsTableVersion := 2, boundAccount := ⟨0, 100⟩,
          authInfoCache := some [], settingsCache := some [] }
        ⟨1, false⟩ ⟨"alice"⟩ 7 (Except.ok [] : Except Unit (List SettingsCacheEntry)) =
      some ({ usersTableVersion := 2, roleOptionsTableVersion := 2,
              dbRoleSettingsTableVersion := 2, boundAccount := ⟨0, 100⟩,
              authInfoCache := some [], settingsCache := some [] }, Except.ok []) := by
  have h := @C4_writeback_race_discards Unit
    { usersTableVersion := 2, roleOptionsTableVersion := 2,
      dbRoleSettingsTableVersion := 2, boundAccount := ⟨0, 100⟩,
      authInfoCache := some [], settingsCache := some [] }
    1 2 1 AuthInfo.zero ([] : List SettingsCacheEntry) ⟨"alice"⟩ 7
  exact ⟨h.1 (by decide), h.2.1 (by decide),
    h.2.2.1 (by decide) (by decide) (by decide), h.2.2.2 (by decide)⟩

/-- An auth-info write-back whose memory grant fails installs nothing,
leaves the account untouched and still returns true. -/
theorem maybeWriteAuthInfoBackToCache_grow_fail (a : Cache) (u r : Nat)
    (info : AuthInfo) (user : SQLUsername)
    (hv1 : a.usersTableVersion = u) (hv2 : a.roleOptionsTableVersion = r)
    (hg : a.boundAccount.Grow (authInfoEntrySize user info) = none) :
    maybeWriteAuthInfoBackToCache a u r info user = some (a, true) := by
  subst hv1
  subst hv2
  simp [maybeWriteAuthInfoBackToCache, hg]

/-- A settings write-back whose memory grant fails installs nothing,
leaves the account untouched and still returns true. -/
theorem maybeWriteDefaultSettingsBackToCache_grow_fail (a : Cache) (d : Nat)
    (es : List SettingsCacheEntry)
    (hv : a.dbRoleSettingsTableVersion = d)
    (hg : a.boundAccount.Grow (computeSettingsSize a.settingsCache es) = none) :
    maybeWriteDefaultSettingsBackToCache a d es = some (a, true) := by
  subst hv
  simp [maybeWriteDefaultSettingsBackToCache, hg]

/-- An auth-info read at equal versions with an absent key is a miss that
leaves the state unchanged. -/
theorem readAuthInfoFromCache_eligible_miss (a : Cache) (user : SQLUsername)
    (hmiss : goMapLookup a.authInfoCache user = none) :
    readAuthInfoFromCache a a.usersTableVersion a.roleOptionsTableVersion user =
      (a, AuthInfo.zero, false) := by
  simp [readAuthInfoFromCache, clearCacheIfStale_all_equal, hmiss]

/-- A settings read at the stored watermark leaves the state unchanged and
returns exactly what the precedence-key walk collects. -/
theorem readDefaultSettingsFromCache_eligible (a : Cache) (user : SQLUsername)
    (db : Nat) :
    readDefaultSettingsFromCache a a.dbRoleSettingsTableVersion user db =
      (a, collectSettings a.settingsCache (GenerateSettingsCacheKeys db user)) := by
  simp [readDefaultSettingsFromCache, clearCacheIfStale_all_equal]

/-- C5: a failed memory grant is never an error: the write-back installs
nothing (state unchanged) yet reports true, and the public operations
complete successfully, returning the freshly fetched value. -/
theorem C5_grow_failure_never_errors {ε : Type} (a : Cache) (u r d : Nat)
    (info : AuthInfo) (user : SQLUsername) (db : Nat)
    (es : List SettingsCacheEntry) :
    (a.usersTableVersion = u → a.roleOptionsTableVersion = r →
      a.boundAccount.Grow (authInfoEntrySize user info) = none →
      maybeWriteAuthInfoBackToCache a u r info user = some (a, true)) ∧
    (a.dbRoleSettingsTableVersion = d →
      a.boundAccount.Grow (computeSettingsSize a.settingsCache es) = none →
      maybeWriteDefaultSettingsBackToCache a d es = some (a, true)) ∧
    (a.usersTableVersion = u → a.roleOptionsTableVersion = r →
      goMapLookup a.authInfoCache user = none →
      a.boundAccount.Grow (authInfoEntrySize user info) = none →
      GetAuthInfo true a ⟨u, false⟩ ⟨r, false⟩ user
        (Except.ok info : Except ε AuthInfo) = some (a, Except.ok info)) ∧
    (a.dbRoleSettingsTableVersion = d →
      (collectSettings a.settingsCache (GenerateSettingsCacheKeys db user)).2 = false →
      a.boundAccount.Grow (computeSettingsSize a.settingsCache es) = none →
      GetDefaultSettings true a ⟨d, false⟩ user db
        (Except.ok es : Except ε (List SettingsCacheEntry)) =
          some (a, Except.ok es)) := by
  refine ⟨maybeWriteAuthInfoBackToCache_grow_fail a u r info user,
    maybeWriteDefaultSettingsBackToCache_grow_fail a d es,
    fun hv1 hv2 hmiss hg => ?_, fun hv hfound hg => ?_⟩
  · subst hv1
    subst hv2
    have hread := readAuthInfoFromCache_eligible_miss a user hmiss
    have hw := maybeWriteAuthInfoBackToCache_grow_fail a _ _ info user rfl rfl hg
    simp [GetAuthInfo, hread, hw]
  · subst hv
    have hread := readDefaultSettingsFromCache_eligible a user db
    have hw := maybeWriteDefaultSettingsBackToCache_grow_fail a _ es rfl hg
    simp [GetDefaultSettings, hread, hw, hfound]

/-- Witness for C5 with a zero-budget account: the grant fails, nothing is
installed, and both operations return the fetched values successfully. -/
theorem C5_grow_failure_witness :
    maybeWriteAuthInfoBackToCache
        { usersTableVersion := 1, roleOptionsTableVersion := 1,
          dbRoleSettingsTableVersion := 1, boundAccount := ⟨0, 0⟩,
          authInfoCache := some [], settingsCache := some [] }
        1 1 AuthInfo.zero ⟨"alice"⟩ =
      some ({ usersTableVersion := 1, roleOptionsTableVersion := 1,
              dbRoleSettingsTableVersion := 1, boundAccount := ⟨0, 0⟩,
              authInfoCache := some [], settingsCache := some [] }, true) ∧
    GetAuthInfo true
        { usersTableVersion := 1, roleOptionsTableVersion := 1,
          dbRoleSettingsTableVersion := 1, boundAccount := ⟨0, 0⟩,
          authInfoCache := some [], settingsCache := some [] }
        ⟨1, false⟩ ⟨1, false⟩ ⟨"alice"⟩ (Except.ok AuthInfo.zero : Except Unit AuthInfo) =
      some ({ usersTableVersion := 1, roleOptionsTableVersion := 1,
              dbRoleSettingsTableVersion := 1, boundAccount := ⟨0, 0⟩,
              authInfoCache := some [], settingsCache := some [] }, Except.ok AuthInfo.zero) ∧
    GetDefaultSettings true
        { usersTableVersion := 1, roleOptionsTableVersion := 1,
          dbRoleSettingsTableVersion := 1, boundAccount := ⟨0, 0⟩,
          authInfoCache := some [], settingsCache := some [] }
        ⟨1, false⟩ ⟨"alice"⟩ 7
        (Except.ok [⟨⟨7, ⟨"alice"⟩⟩, ["x"]⟩] : Except Unit (List SettingsCacheEntry)) =
      some ({ usersTableVersion := 1, roleOptionsTableVersion := 1,
              dbRoleSettingsTableVersion := 1, boundAccount := ⟨0, 0⟩,
              authInfoCache := some [], settingsCache := some [] },
        Except.ok [⟨⟨7, ⟨"alice"⟩⟩, ["x"]⟩]) := by
  have h := @C5_grow_failure_never_errors Unit
    { usersTableVersion := 1, roleOptionsTableVersion := 1,
      dbRoleSettingsTableVersion := 1, boundAccount := ⟨0, 0⟩,
      authInfoCache := some [], settingsCache := some [] }
    1 1 1 AuthInfo.zero ⟨"alice"⟩ 7
    ([⟨⟨7, ⟨"alice"⟩⟩, ["x"]⟩] : List SettingsCacheEntry)
  exact ⟨h.1 (by decide) (by decide) (by decide),
    h.2.2.1 (by decide) (by decide) (by decide) (by decide),
    h.2.2.2 (by decide) (by decide) (by decide)⟩

/-- The hit flag computed by the precedence-key walk is exactly "every key
is present in the settings map". -/
theorem collectSettings_snd (m : Option (List (SettingsCacheKey × List String))) :
    ∀ ks : List SettingsCacheKey,
      (collectSettings m ks).2 = ks.all fun k => (goMapLookup m k).isSome
  | [] => rfl
  | k :: ks => by
    cases hk : goMapLookup m k with
    | none => simp [collectSettings, hk]
    | some s => simp [collectSettings, hk, collectSettings_snd m ks]

/-- Inserting settings entries into an allocated map never panics and
leaves the map allocated. -/
theorem insertSettingsEntries_from_some (es : List SettingsCacheEntry) :
    ∀ mm : List (SettingsCacheKey × List String),
      ∃ mm', insertSettingsEntries (some mm) es = some (some mm') := by
  induction es with
  | nil => exact fun mm => ⟨mm, rfl⟩
  | cons e rest ih =>
    intro mm
    unfold insertSettingsEntries
    split
    · exact ih mm
    · exact ih (mapInsert mm e.key e.Settings)

/-- A settings write-back at the stored watermark against an allocated map
always succeeds (returns true), whatever the grant outcome. -/
theorem maybeWriteDefaultSettingsBackToCache_no_panic (a : Cache) (d : Nat)
    (es : List SettingsCacheEntry) (mm : List (SettingsCacheKey × List String))
    (hmm : a.settingsCache = some mm) (hv : a.dbRoleSettingsTableVersion = d) :
    ∃ a', maybeWriteDefaultSettingsBackToCache a d es = some (a', true) := by
  subst hv
  unfold maybeWriteDefaultSettingsBackToCache
  rw [if_neg (by simp), hmm]
  cases hg : a.boundAccount.Grow (computeSettingsSize (some mm) es) with
  | none => exact ⟨a, rfl⟩
  | some acct =>
    obtain ⟨mm', hmm'⟩ := insertSettingsEntries_from_some es mm
    rw [hmm']
    exact ⟨_, rfl⟩

/-- C6: a settings read reports a hit exactly when all four generated
precedence keys are present; with any one key absent it reports a full
miss (never a partial result), and GetDefaultSettings then performs the
full refetch, returning the complete fetched entry set. -/
theorem C6_settings_all_or_nothing {ε : Type} (a : Cache) (d db : Nat)
    (user : SQLUsername) (k : SettingsCacheKey) (es : List SettingsCacheEntry)
    (mm : List (SettingsCacheKey × List String))
    (hd : a.dbRoleSettingsTableVersion = d) :
    ((readDefaultSettingsFromCache a d user db).2.2 =
      ((GenerateSettingsCacheKeys db user).all
        fun k' => (goMapLookup a.settingsCache k').isSome)) ∧
    (k ∈ GenerateSettingsCacheKeys db user → goMapLookup a.settingsCache k = none →
      (readDefaultSettingsFromCache a d user db).2.2 = false ∧
      (a.settingsCache = some mm →
        ∃ a', GetDefaultSettings true a ⟨d, false⟩ user db
          (Except.ok es : Except ε (List SettingsCacheEntry)) =
            some (a', Except.ok es))) := by
  subst hd
  have hread := readDefaultSettingsFromCache_eligible a user db
  refine ⟨?_, fun hk hmiss => ?_⟩
  · rw [hread]
    exact collectSettings_snd a.settingsCache _
  · have hcoll : (collectSettings a.settingsCache
        (GenerateSettingsCacheKeys db user)).2 = false := by
      rw [collectSettings_snd]
      cases hall : (GenerateSettingsCacheKeys db user).all
          fun k' => (goMapLookup a.settingsCache k').isSome with
      | false => rfl
      | true =>
        exfalso
        have hmem := List.all_eq_true.1 hall k hk
        rw [hmiss] at hmem
        simp at hmem
    refine ⟨by rw [hread]; exact hcoll, fun hmm => ?_⟩
    obtain ⟨a', hw⟩ :=
      maybeWriteDefaultSettingsBackToCache_no_panic a _ es mm hmm rfl
    exact ⟨a', by simp [GetDefaultSettings, hread, hcoll, hw]⟩

/-- Witness for C6: with all four precedence keys for (7, "bob") cached the
read is a hit; with an empty settings map it is a full miss and the fetch
result is returned. -/
theorem C6_settings_all_or_nothing_witness :
    (readDefaultSettingsFromCache
      { usersTableVersion := 1, roleOptionsTableVersion := 1,
        dbRoleSettingsTableVersion := 1, boundAccount := ⟨0, 10⟩,
        authInfoCache := some [],
        settingsCache := some [(⟨7, ⟨"bob"⟩⟩, ["x"]), (⟨0, ⟨"bob"⟩⟩, []),
          (⟨7, ⟨""⟩⟩, []), (⟨0, ⟨""⟩⟩, [])] } 1 ⟨"bob"⟩ 7).2.2 = true ∧
    (readDefaultSettingsFromCache
      { usersTableVersion := 1, roleOptionsTableVersion := 1,
        dbRoleSettingsTableVersion := 1, boundAccount := ⟨0, 10⟩,
        authInfoCache := some [],
        settingsCache := some [(⟨7, ⟨"bob"⟩⟩, ["x"]), (⟨0, ⟨"bob"⟩⟩, []),
          (⟨7, ⟨""⟩⟩, [])] } 1 ⟨"bob"⟩ 7).2.2 = false ∧
    ∃ a', GetDefaultSettings true
        { usersTableVersion := 1, roleOptionsTableVersion := 1,
          dbRoleSettingsTableVersion := 1, boundAccount := ⟨0, 10⟩,
          authInfoCache := some [],
          settingsCache := some [(⟨7, ⟨"bob"⟩⟩, ["x"]), (⟨0, ⟨"bob"⟩⟩, []),
            (⟨7, ⟨""⟩⟩, [])] } ⟨1, false⟩ ⟨"bob"⟩ 7
        (Except.ok [] : Except Unit (List SettingsCacheEntry)) =
      some (a', Except.ok []) := by
  have h1 := @C6_settings_all_or_nothing Unit
    { usersTableVersion := 1, roleOptionsTableVersion := 1,
      dbRoleSettingsTableVersion := 1, boundAccount := ⟨0, 10⟩,
      authInfoCache := some [],
      settingsCache := some [(⟨7, ⟨"bob"⟩⟩, ["x"]), (⟨0, ⟨"bob"⟩⟩, []),
        (⟨7, ⟨""⟩⟩, []), (⟨0, ⟨""⟩⟩, [])] } 1 7 ⟨"bob"⟩ ⟨0, ⟨""⟩⟩ [] [] rfl
  have h2 := @C6_settings_all_or_nothing Unit
    { usersTableVersion := 1, roleOptionsTableVersion := 1,
      dbRoleSettingsTableVersion := 1, boundAccount := ⟨0, 10⟩,
      authInfoCache := some [],
      settingsCache := some [(⟨7, ⟨"bob"⟩⟩, ["x"]), (⟨0, ⟨"bob"⟩⟩, []),
        (⟨7, ⟨""⟩⟩, [])] } 1 7 ⟨"bob"⟩ ⟨0, ⟨""⟩⟩ []
    [(⟨7, ⟨"bob"⟩⟩, ["x"]), (⟨0, ⟨"bob"⟩⟩, []), (⟨7, ⟨""⟩⟩, [])] rfl
  exact ⟨h1.1.trans (by decide),
    (h2.2 (by decide) (by decide)).1,
    (h2.2 (by decide) (by decide)).2 rfl⟩

/-- The requested byte count is the sum of the entry sizes of exactly the
entries whose key is absent from the settings map. -/
theorem computeSettingsSize_eq_absent_sum
    (m : Option (List (SettingsCacheKey × List String))) :
    ∀ es : List SettingsCacheEntry,
      computeSettingsSize m es =
        ((es.filter fun e => (goMapLookup m e.key).isNone).map settingsEntrySize).sum
  | [] => rfl
  | e :: rest => by
    cases hp : goMapLookup m e.key with
    | some s =>
      simp [computeSettingsSize, List.filter_cons, hp,
        computeSettingsSize_eq_absent_sum m rest]
    | none =>
      simp [computeSettingsSize, List.filter_cons, hp,
        computeSettingsSize_eq_absent_sum m rest]

/-- With every key already present, nothing is charged. -/
theorem computeSettingsSize_all_present
    (m : Option (List (SettingsCacheKey × List String))) :
    ∀ es : List SettingsCacheEntry,
      (∀ e ∈ es, (goMapLookup m e.key).isSome) → computeSettingsSize m es = 0
  | [], _ => rfl
  | e :: rest, h => by
    unfold computeSettingsSize
    rw [if_pos (h e (by simp))]
    exact computeSettingsSize_all_present m rest fun x hx => h x (by simp [hx])

/-- With every key already present, the insertion loop changes nothing. -/
theorem insertSettingsEntries_all_present
    (m : Option (List (SettingsCacheKey × List String))) :
    ∀ es : List SettingsCacheEntry,
      (∀ e ∈ es, (goMapLookup m e.key).isSome) → insertSettingsEntries m es = some m
  | [], _ => rfl
  | e :: rest, h => by
    unfold insertSettingsEntries
    rw [if_pos (h e (by simp))]
    exact insertSettingsEntries_all_present m rest fun x hx => h x (by simp [hx])

/-- C9: the byte count a settings write-back requests from the accountant
covers only keys not already present; writing back an entry set whose keys
are all cached requests exactly zero bytes and leaves the whole state
unchanged. -/
theorem C9_settings_size_only_absent_keys (a : Cache) (d : Nat)
    (es : List SettingsCacheEntry) :
    (computeSettingsSize a.settingsCache es =
      ((es.filter fun e => (goMapLookup a.settingsCache e.key).isNone).map
        settingsEntrySize).sum) ∧
    ((∀ e ∈ es, (goMapLookup a.settingsCache e.key).isSome) →
      computeSettingsSize a.settingsCache es = 0 ∧
      (a.dbRoleSettingsTableVersion = d →
        a.boundAccount.used ≤ a.boundAccount.limit →
        maybeWriteDefaultSettingsBackToCache a d es = some (a, true))) := by
  refine ⟨computeSettingsSize_eq_absent_sum a.settingsCache es, fun hall => ?_⟩
  have h0 := computeSettingsSize_all_present a.settingsCache es hall
  refine ⟨h0, fun hv hle => ?_⟩
  subst hv
  unfold maybeWriteDefaultSettingsBackToCache
  rw [if_neg (by simp), h0]
  have hg : a.boundAccount.Grow 0 = some a.boundAccount := by
    unfold BoundAccount.Grow
    rw [if_pos (by simpa using hle)]
    rfl
  rw [hg, insertSettingsEntries_all_present a.settingsCache es hall]

/-- Witness for C9: re-inserting an entry set whose single key is already
cached charges zero bytes and is a no-op returning true. -/
theorem C9_settings_size_witness :
    computeSettingsSize
      (some [(⟨7, ⟨"b"⟩⟩, ["x"])]) [⟨⟨7, ⟨"b"⟩⟩, ["x"]⟩] = 0 ∧
    maybeWriteDefaultSettingsBackToCache
      { usersTableVersion := 1, roleOptionsTableVersion := 1,
        dbRoleSettingsTableVersion := 1, boundAccount := ⟨2, 10⟩,
        authInfoCache := some [],
        settingsCache := some [(⟨7, ⟨"b"⟩⟩, ["x"])] } 1 [⟨⟨7, ⟨"b"⟩⟩, ["x"]⟩] =
      some ({ usersTableVersion := 1, roleOptionsTableVersion := 1,
              dbRoleSettingsTableVersion := 1, boundAccount := ⟨2, 10⟩,
              authInfoCache := some [],
              settingsCache := some [(⟨7, ⟨"b"⟩⟩, ["x"])] }, true) := by
  have h := C9_settings_size_only_absent_keys
    { usersTableVersion := 1, roleOptionsTableVersion := 1,
      dbRoleSettingsTableVersion := 1, boundAccount := ⟨2, 10⟩,
      authInfoCache := some [],
      settingsCache := some [(⟨7, ⟨"b"⟩⟩, ["x"])] } 1 [⟨⟨7, ⟨"b"⟩⟩, ["x"]⟩]
  exact ⟨(h.2 (by decide)).1, (h.2 (by decide)).2 rfl (by decide)⟩

/-- Inserting a nonempty entry list into the nil settings map panics; only
the empty list survives, leaving the map nil. -/
theorem insertSettingsEntries_from_none (es : List SettingsCacheEntry)
    (m' : Option (List (SettingsCacheKey × List String)))
    (h : insertSettingsEntries none es = some m') : es = [] ∧ m' = none := by
  cases es with
  | nil =>
    cases h
    exact ⟨rfl, rfl⟩
  | cons e rest =>
    unfold insertSettingsEntries at h
    rw [if_neg (by simp [goMapLookup])] at h
    exact Option.noConfusion h

/-- The nil-map invariant: whenever either mapping is still nil, both are
and no clearing branch has ever run (all three watermarks are still the
initial zero). -/
def nilMapsOnlyWhenFresh (c : Cache) : Prop :=
  (c.authInfoCache = none ∨ c.settingsCache = none) →
    (c.authInfoCache = none ∧ c.settingsCache = none ∧
      c.usersTableVersion = 0 ∧ c.roleOptionsTableVersion = 0 ∧
      c.dbRoleSettingsTableVersion = 0)

/-- The staleness check preserves the nil-map invariant. -/
theorem clearCacheIfStale_preserves_inv (c : Cache) (u r d : Nat)
    (h : nilMapsOnlyWhenFresh c) :
    nilMapsOnlyWhenFresh (clearCacheIfStale c u r d).1 := by
  unfold clearCacheIfStale
  split
  · intro hc
    rcases hc with hc | hc <;> simp at hc
  · split
    · exact h
    · exact h

/-- The auth-info write-back preserves the nil-map invariant. -/
theorem maybeWriteAuthInfoBackToCache_preserves_inv (c : Cache) (u r : Nat)
    (info : AuthInfo) (user : SQLUsername) (p : Cache × Bool)
    (hp : maybeWriteAuthInfoBackToCache c u r info user = some p)
    (h : nilMapsOnlyWhenFresh c) : nilMapsOnlyWhenFresh p.1 := by
  unfold maybeWriteAuthInfoBackToCache at hp
  split at hp
  · cases hp
    exact h
  · split at hp
    · cases hp
      exact h
    · split at hp
      · exact Option.noConfusion hp
      · rename_i acct hacct m hm
        cases hp
        intro hc
        rcases hc with hc | hc
        · simp at hc
        · simp only at hc
          obtain ⟨hauth, _⟩ := h (Or.inr hc)
          rw [hm] at hauth
          exact Option.noConfusion hauth

/-- The settings write-back preserves the nil-map invariant. -/
theorem maybeWriteDefaultSettingsBackToCache_preserves_inv (c : Cache) (d : Nat)
    (es : List SettingsCacheEntry) (p : Cache × Bool)
    (hp : maybeWriteDefaultSettingsBackToCache c d es = some p)
    (h : nilMapsOnlyWhenFresh c) : nilMapsOnlyWhenFresh p.1 := by
  unfold maybeWriteDefaultSettingsBackToCache at hp
  split at hp
  · cases hp
    exact h
  · split at hp
    · cases hp
      exact h
    · split at hp
      · exact Option.noConfusion hp
      · rename_i acct hacct m' hins
        cases hp
        cases hm : c.settingsCache with
        | some mm =>
          rw [hm] at hins
          obtain ⟨mm', hmm'⟩ := insertSettingsEntries_from_some es mm
          rw [hmm'] at hins
          intro hc
          rcases hc with hc | hc
          · simp only at hc
            obtain ⟨_, hsett, _⟩ := h (Or.inl hc)
            rw [hm] at hsett
            exact Option.noConfusion hsett
          · simp only at hc
            rw [hc] at hins
            exact Option.noConfusion (Option.some.inj hins)
        | none =>
          rw [hm] at hins
          obtain ⟨hes, hm'⟩ := insertSettingsEntries_from_none es m' hins
          obtain ⟨hauth, _, hv1, hv2, hv3⟩ := h (Or.inr hm)
          intro _
          exact ⟨hauth, hm', hv1, hv2, hv3⟩

/-- In every reachable cache state, a nil mapping can only occur while the
cache is completely fresh: all watermarks zero and both maps nil. -/
theorem reachable_nilMapsOnlyWhenFresh (acct : BoundAccount) (c : Cache)
    (h : Reachable acct c) : nilMapsOnlyWhenFresh c := by
  induction h with
  | init => exact fun _ => ⟨rfl, rfl, rfl, rfl, rfl⟩
  | step hr hs ih =>
    cases hs with
    | clearIfStale u r d => exact clearCacheIfStale_preserves_inv _ u r d ih
    | readAuth u r user =>
      rw [readAuthInfoFromCache_fst]
      exact clearCacheIfStale_preserves_inv _ _ _ _ ih
    | readSettings d user db =>
      rw [readDefaultSettingsFromCache_fst]
      exact clearCacheIfStale_preserves_inv _ _ _ _ ih
    | writeAuth u r info user p hp =>
      exact maybeWriteAuthInfoBackToCache_preserves_inv _ u r info user p hp ih
    | writeSettings d es p hp =>
      exact maybeWriteDefaultSettingsBackToCache_preserves_inv _ d es p hp ih

/-- C10 as stated is false at the zero-version edge case: on the freshly
constructed cache (a reachable state) a write-back with all caller versions
equal to the initial zero watermarks passes the version recheck, the memory
grant succeeds, and yet the auth-info mapping is still the nil map left by
NewCache, so the insertion is a Go nil-map-assignment panic (modelled by
the operation returning none). -/
theorem C10_counterexample :
    Reachable ⟨0, 1000⟩ (NewCache ⟨0, 1000⟩) ∧
    (NewCache ⟨0, 1000⟩).usersTableVersion = 0 ∧
    (NewCache ⟨0, 1000⟩).roleOptionsTableVersion = 0 ∧
    (NewCache ⟨0, 1000⟩).authInfoCache = none ∧
    ((NewCache ⟨0, 1000⟩).boundAccount.Grow
      (authInfoEntrySize ⟨"alice"⟩ AuthInfo.zero)).isSome = true ∧
    maybeWriteAuthInfoBackToCache (NewCache ⟨0, 1000⟩) 0 0 AuthInfo.zero ⟨"alice"⟩ =
      none :=
  ⟨Reachable.init, rfl, rfl, rfl, by decide, by decide⟩

/-- C10 (amended): in every reachable state in which the clearing branch
has ever run — equivalently, in which at least one stored watermark is
nonzero — both mappings are non-nil, so the write-back insertions are
well-defined; only the fresh all-zero-watermark state (where a zero-version
caller passes the recheck) still has the nil mappings of NewCache. -/
theorem C10_maps_allocated_when_cleared (acct : BoundAccount) (c : Cache)
    (h : Reachable acct c)
    (hv : c.usersTableVersion ≠ 0 ∨ c.roleOptionsTableVersion ≠ 0 ∨
      c.dbRoleSettingsTableVersion ≠ 0) :
    c.authInfoCache ≠ none ∧ c.settingsCache ≠ none := by
  have hinv := reachable_nilMapsOnlyWhenFresh acct c h
  constructor
  · intro hn
    obtain ⟨_, _, h1, h2, h3⟩ := hinv (Or.inl hn)
    rcases hv with hv | hv | hv
    exacts [hv h1, hv h2, hv h3]
  · intro hn
    obtain ⟨_, _, h1, h2, h3⟩ := hinv (Or.inr hn)
    rcases hv with hv | hv | hv
    exacts [hv h1, hv h2, hv h3]

/-- Witness for C10 (amended): after one clearing step both mappings are
allocated. -/
theorem C10_maps_allocated_witness :
    (clearCacheIfStale (NewCache ⟨0, 10⟩) 1 0 0).1.authInfoCache ≠ none ∧
    (clearCacheIfStale (NewCache ⟨0, 10⟩) 1 0 0).1.settingsCache ≠ none :=
  C10_maps_allocated_when_cleared ⟨0, 10⟩ _
    (Reachable.step Reachable.init (Step.clearIfStale 1 0 0)) (Or.inl (by decide))

end Sessioninit
